import Mathlib

/-!
Shallow embedding of the cache layer of the review-sentiment analytics
backend: `backend/redis_config.py` (class `RedisConfig`) and
`backend/cache_utils.py` (class `CacheManager`).

The backing Redis store is modelled as an explicit state (`Store`): a
connectedness flag plus a partial map from keys to `(value, ttl)` pairs.
Values are modelled as JSON-like trees (`JVal`); producers return
JSON-serializable values (spec section 6), for which the source's
`json.dumps`/`json.loads` round trip is the identity, so the store holds
`JVal`s directly.  A producer invocation is modelled by its outcome
(`FetchOutcome`): it either raises or returns an optional value; the
orchestrator reports how many times it invoked the producer.
-/

namespace CacheCore

/-- JSON-like values: the cacheable payloads (JSON-serializable per spec
section 6).  Null payloads are represented at the `Option` level by the
callers (`cache_with_fallback` never writes a null). -/
inductive JVal where
  | str (s : String)
  | num (n : Int)
  | bool (b : Bool)
  | arr (elems : List JVal)
  | obj (fields : List (String × JVal))

/-- State of the backing key-value store: `connected = false` models
`redis_client is None`; `entries` maps each key to its live
`(value, ttl-seconds)` entry. -/
structure Store where
  connected : Bool
  entries : String → Option (JVal × Nat)

/-- Value of `RedisConfig.default_ttl` (`redis_config.py` line 16). -/
def default_ttl : Nat := 600

/-- Value of `RedisConfig.component_ttl` (`redis_config.py` line 17). -/
def component_ttl : Nat := 1800

/-- Model of `RedisConfig.get` (`redis_config.py` lines 53-69): returns
`none` when the client is not connected, otherwise the deserialized
stored value for the key (`none` on a miss).  Exceptions from the client
degrade to `none` in the source; the modelled lookup is total. -/
def RedisConfig.get (st : Store) (key : String) : Option JVal :=
  if st.connected then (st.entries key).map Prod.fst else none

/-- Model of `ttl = ttl or self.default_ttl` (`redis_config.py` line
77): Python `or` replaces a falsy ttl (absent `None`, or `0`) by the
default. -/
def effective_ttl (ttl : Option Nat) : Nat :=
  match ttl with
  | none => default_ttl
  | some t => if t = 0 then default_ttl else t

/-- Model of `RedisConfig.set` (`redis_config.py` lines 71-86): returns
`false` and leaves the store unchanged when disconnected; otherwise
writes the value under the key with the effective ttl and returns
`true`. -/
def RedisConfig.set (st : Store) (key : String) (value : JVal)
    (ttl : Option Nat) : Bool × Store :=
  if st.connected then
    (true, { st with
             entries := fun k =>
               if k = key then some (value, effective_ttl ttl)
               else st.entries k })
  else (false, st)

/-- Outcome of one producer (`fetch_function`) invocation: it raises, or
returns an optional (possibly null) value. -/
inductive FetchOutcome where
  | raises (e : String)
  | returns (v : Option JVal)

/-- Result of one `cache_with_fallback` call: the value returned (or the
propagated producer error), the store state afterwards, and how many
times the producer was invoked during the call. -/
structure CacheCallResult where
  result : Except String (Option JVal)
  store : Store
  producerCalls : Nat

/-- Model of `CacheManager.cache_with_fallback` (`cache_utils.py` lines
14-38): look the key up; on a hit return the cached value without
invoking the producer; on a miss invoke the producer once, propagate its
exception if it raises, write a non-null result to the store (ignoring
the write's boolean result) and return it, and return a null result
without caching. -/
def cache_with_fallback (st : Store) (cache_key : String)
    (producer : FetchOutcome) (ttl : Option Nat) : CacheCallResult :=
  match RedisConfig.get st cache_key with
  | some cached => ⟨.ok (some cached), st, 0⟩
  | none =>
    match producer with
    | .raises e => ⟨.error e, st, 1⟩
    | .returns none => ⟨.ok none, st, 1⟩
    | .returns (some v) =>
      ⟨.ok (some v), (RedisConfig.set st cache_key v ttl).2, 1⟩

/-- Round a rational to the nearest integer, ties to the even integer:
the semantics of Python's builtin `round`. -/
def roundHalfEven (q : ℚ) : ℤ :=
  if q - ⌊q⌋ < 1/2 then ⌊q⌋
  else if (1:ℚ)/2 < q - ⌊q⌋ then ⌊q⌋ + 1
  else if ⌊q⌋ % 2 = 0 then ⌊q⌋ else ⌊q⌋ + 1

/-- Python `round(x, 2)`: round to two decimal places, ties to even. -/
def round2 (x : ℚ) : ℚ := (roundHalfEven (x * 100) : ℚ) / 100

/-- Model of `RedisConfig._calculate_hit_rate` (`redis_config.py` lines
160-164): `0.0` when there is no traffic, otherwise
`round((hits/total)*100, 2)`. -/
def calculate_hit_rate (hits misses : Nat) : ℚ :=
  let total := hits + misses
  if total = 0 then 0 else round2 ((hits / (total : ℚ)) * 100)

/-- Modelled from the spec: the source feeds the canonical parameter
string to `hashlib.md5(...).hexdigest()`, an external-library digest
that is not repository code; the spec (section 4.2) requires only "a
fixed-width, collision-resistant digest".  Modelled as a deterministic
digest of the input string rendered as exactly 32 hexadecimal
characters, the width of an MD5 hex digest. -/
def md5_hexdigest (s : String) : String :=
  let n : Nat := s.data.foldl (fun acc c => (acc * 65599 + c.toNat) % 2 ^ 128) 0
  String.mk ((List.range 32).map fun i => Nat.digitChar (n / 16 ^ (31 - i) % 16))

/-- Lexicographic code-point comparison of character lists: the ordering
Python uses on strings in `sorted`. -/
def charListLe : List Char → List Char → Bool
  | [], _ => true
  | _ :: _, [] => false
  | a :: as, b :: bs =>
    if a.toNat < b.toNat then true
    else if b.toNat < a.toNat then false
    else charListLe as bs

/-- Python string comparison `<=`: lexicographic on code points. -/
def strLe (a b : String) : Bool := charListLe a.data b.data

/-- Order on parameters used by Python's `sorted(kwargs.items())`:
compare by parameter name (kwarg names are pairwise distinct, so the
tuple comparison never reaches the values). -/
def nameLe (a b : String × Option String) : Prop := strLe a.1 b.1 = true

instance : DecidableRel nameLe := fun a b =>
  inferInstanceAs (Decidable (strLe a.1 b.1 = true))

/-- Strict variant of `nameLe`: leading name strictly smaller.  Lists of
parameters sorted by name with pairwise-distinct names are pairwise in
this relation, which is (vacuously) antisymmetric. -/
def nameStrict (a b : String × Option String) : Prop :=
  nameLe a b ∧ a.1 ≠ b.1

/-- Canonical parameter string of `RedisConfig.generate_cache_key`
(`redis_config.py` lines 45-46): sort the parameters by name, drop those
whose value is `None`, format each as `name=value` and join with `&`.  A
parameter value is modelled by its Python `str()` rendering (`none`
models Python `None`). -/
def param_string (kwargs : List (String × Option String)) : String :=
  let sorted_params := List.insertionSort nameLe kwargs
  "&".intercalate
    ((sorted_params.filter fun kv => kv.2.isSome).map
      fun kv => kv.1 ++ "=" ++ kv.2.getD "")

/-- Model of `RedisConfig.generate_cache_key` (`redis_config.py` lines
44-51): `"{prefix}:{digest of the canonical parameter string}"`. -/
def generate_cache_key (pfx : String)
    (kwargs : List (String × Option String)) : String :=
  pfx ++ ":" ++ md5_hexdigest (param_string kwargs)

/-- Outcome of one warming sub-task as observed by
`asyncio.gather(..., return_exceptions=True)`: its value, or the
exception it raised. -/
inductive SubOutcome where
  | ok (v : JVal)
  | exc (e : String)

/-- Number of sub-tasks in `warming_tasks` (`cache_utils.py` lines
55-62): the fixed fan-out of five dashboard sub-queries plus a second
distribution period. -/
def warming_task_count : Nat := 6

/-- The warming report dictionary (`cache_utils.py` lines 72-77 and
81-86): the success branch has `total` and no `error`; the catastrophic
branch has `error` and no `total`. -/
structure WarmReport where
  product : String
  successful : Nat
  failed : Nat
  total : Option Nat
  error : Option String

/-- Count of sub-results that are not exceptions (`cache_utils.py`
line 67). -/
def countSuccessful (results : List SubOutcome) : Nat :=
  (results.filter fun r => match r with | .ok _ => true | .exc _ => false).length

/-- Model of `CacheManager.warm_cache_for_product` (`cache_utils.py`
lines 40-86), given the outcome of the gather fan-out: when the gather
settles (individual sub-task failures are returned, not raised), count
successes and failures; when the fan-out itself raises, report zero
successes, all tasks failed, and the error message.  The function always
returns a report and never raises. -/
def warm_cache_for_product (parent_asin : String)
    (gathered : Except String (List SubOutcome)) : WarmReport :=
  match gathered with
  | .ok results =>
    let successful := countSuccessful results
    { product := parent_asin
      successful := successful
      failed := results.length - successful
      total := some results.length
      error := none }
  | .error e =>
    { product := parent_asin
      successful := 0
      failed := warming_task_count
      total := none
      error := some e }

/-- Outcome of one raw Redis client call: a value, or a raised
exception. -/
inductive OpResult (α : Type) where
  | ok (v : α)
  | exc (e : String)

/-- Behaviour of the raw Redis client commands used by pattern deletion:
`keys(pattern)` enumerates matching keys, `delete(*keys)` deletes them
and returns the count.  Either call may raise. -/
structure RawClient where
  keys : String → OpResult (List String)
  del : List String → OpResult Nat

/-- Model of `RedisConfig.delete_pattern` (`redis_config.py` lines
102-117): returns `0` when disconnected; enumerates matching keys and
bulk-deletes them, returning the deleted count; `0` when nothing
matches; any raised exception is caught and degrades to `0` — the
function never raises. -/
def delete_pattern (connected : Bool) (client : RawClient)
    (pat : String) : Nat :=
  if connected then
    match client.keys pat with
    | .exc _ => 0
    | .ok [] => 0
    | .ok (k :: ks) =>
      match client.del (k :: ks) with
      | .exc _ => 0
      | .ok n => n
  else 0

/-- The six per-entity glob patterns of
`RedisConfig.invalidate_product_cache` (`redis_config.py` lines
120-127). -/
def invalidation_patterns (parent_asin : String) : List String :=
  [ "dashboard:*" ++ parent_asin ++ "*"
  , "summary:*" ++ parent_asin ++ "*"
  , "wordcloud:*" ++ parent_asin ++ "*"
  , "timeline:*" ++ parent_asin ++ "*"
  , "distribution:*" ++ parent_asin ++ "*"
  , "sentiment_map:*" ++ parent_asin ++ "*" ]

/-- Model of `RedisConfig.invalidate_product_cache` (`redis_config.py`
lines 119-135): sums `delete_pattern` over the six patterns.  Because
`delete_pattern` catches every exception, this function is total and
never raises. -/
def redis_invalidate_product_cache (connected : Bool) (client : RawClient)
    (parent_asin : String) : Nat :=
  ((invalidation_patterns parent_asin).map
    (delete_pattern connected client)).sum

/-- The invalidation report dictionary (`cache_utils.py` lines 94-99 and
103-109), without the wall-clock timestamp field. -/
structure InvalidationReport where
  product : String
  deleted_keys : Nat
  status : String
  error : Option String

/-- Model of `CacheManager.invalidate_product_cache` (`cache_utils.py`
lines 88-109): wraps `redis.invalidate_product_cache` in a `try`,
reporting `status="success"` with the aggregate count, or
`status="error"` with the message if that call raised.  Since
`delete_pattern` catches every per-pattern exception, the callee never
raises and the `except` branch is unreachable: the report is always the
success form. -/
def manager_invalidate_product_cache (connected : Bool) (client : RawClient)
    (parent_asin : String) : InvalidationReport :=
  { product := parent_asin
    deleted_keys := redis_invalidate_product_cache connected client parent_asin
    status := "success"
    error := none }

/-- A connected store with no entries. -/
def emptyStore : Store := ⟨true, fun _ => none⟩

/-- A disconnected store with no entries. -/
def offlineStore : Store := ⟨false, fun _ => none⟩

/-- A connected store holding the number 5 under key `"k"`. -/
def smallStore : Store :=
  ⟨true, fun k => if k = "k" then some (.num 5, 600) else none⟩

/-- A raw client whose key enumeration raises for the dashboard pattern
of product `B01`, matches one key for the summary pattern, and matches
nothing otherwise. -/
def flakyClient : RawClient where
  keys pat :=
    if pat = "dashboard:*B01*" then .exc "connection reset by peer"
    else if pat = "summary:*B01*" then .ok ["summary:deadbeef"]
    else .ok []
  del ks := .ok ks.length

theorem charListLe_total : ∀ a b : List Char,
    charListLe a b = true ∨ charListLe b a = true
  | [], _ => .inl rfl
  | _ :: _, [] => .inr rfl
  | a :: as, b :: bs => by
    by_cases hab : a.toNat < b.toNat
    · left; simp [charListLe, hab]
    · by_cases hba : b.toNat < a.toNat
      · right; simp [charListLe, hba]
      · rcases charListLe_total as bs with h | h
        · left; simp [charListLe, hab, hba, h]
        · right; simp [charListLe, hba, hab, h]

theorem charListLe_trans : ∀ a b c : List Char, charListLe a b = true →
    charListLe b c = true → charListLe a c = true
  | [], _, _, _, _ => rfl
  | _ :: _, [], _, h, _ => by simp [charListLe] at h
  | _ :: _, _ :: _, [], _, h => by simp [charListLe] at h
  | a :: as, b :: bs, c :: cs, h1, h2 => by
    by_cases hab : a.toNat < b.toNat <;> by_cases hbc : b.toNat < c.toNat
    · simp [charListLe, Nat.lt_trans hab hbc]
    · by_cases hcb : c.toNat < b.toNat
      · simp [charListLe, hbc, hcb] at h2
      · have hbc' : b.toNat = c.toNat :=
          Nat.le_antisymm (Nat.not_lt.mp hcb) (Nat.not_lt.mp hbc)
        simp [charListLe, hbc' ▸ hab]
    · by_cases hba : b.toNat < a.toNat
      · simp [charListLe, hab, hba] at h1
      · have hab' : a.toNat = b.toNat :=
          Nat.le_antisymm (Nat.not_lt.mp hba) (Nat.not_lt.mp hab)
        simp [charListLe, hab' ▸ hbc]
    · by_cases hba : b.toNat < a.toNat
      · simp [charListLe, hab, hba] at h1
      · by_cases hcb : c.toNat < b.toNat
        · simp [charListLe, hbc, hcb] at h2
        · have hab' : a.toNat = b.toNat :=
            Nat.le_antisymm (Nat.not_lt.mp hba) (Nat.not_lt.mp hab)
          have hac : ¬ a.toNat < c.toNat := hab' ▸ hbc
          have hca : ¬ c.toNat < a.toNat := fun h => hcb (hab' ▸ h)
          simp only [charListLe, if_neg hab, if_neg hba] at h1
          simp only [charListLe, if_neg hbc, if_neg hcb] at h2
          simp [charListLe, hac, hca, charListLe_trans as bs cs h1 h2]

theorem charListLe_antisymm : ∀ a b : List Char, charListLe a b = true →
    charListLe b a = true → a = b
  | [], [], _, _ => rfl
  | [], _ :: _, _, h => by simp [charListLe] at h
  | _ :: _, [], h, _ => by simp [charListLe] at h
  | a :: as, b :: bs, h1, h2 => by
    by_cases hab : a.toNat < b.toNat
    · simp [charListLe, Nat.lt_asymm hab, hab] at h2
    · by_cases hba : b.toNat < a.toNat
      · simp [charListLe, hab, hba] at h1
      · have hab' : a = b :=
          Char.ext (UInt32.ext
            (Nat.le_antisymm (Nat.not_lt.mp hba) (Nat.not_lt.mp hab)))
        simp only [charListLe, if_neg hab, if_neg hba] at h1
        simp only [charListLe, if_neg hab, if_neg hba] at h2
        rw [hab', charListLe_antisymm as bs h1 h2]

theorem string_eq_of_data_eq {a b : String} (h : a.data = b.data) : a = b := by
  cases a; cases b; exact congrArg String.mk h

theorem strLe_antisymm {a b : String} (h1 : strLe a b = true)
    (h2 : strLe b a = true) : a = b :=
  string_eq_of_data_eq (charListLe_antisymm _ _ h1 h2)

theorem md5_hexdigest_length (s : String) : (md5_hexdigest s).length = 32 := by
  simp [md5_hexdigest, String.length]

theorem sorted_nodup_eq_of_perm {l1 l2 : List (String × Option String)}
    (hperm : List.Perm l1 l2)
    (hs1 : List.Sorted nameLe l1) (hs2 : List.Sorted nameLe l2)
    (hn1 : (l1.map Prod.fst).Nodup) : l1 = l2 := by
  haveI : IsAntisymm (String × Option String) nameStrict :=
    ⟨fun a b h1 h2 => absurd (strLe_antisymm h1.1 h2.1) h1.2⟩
  have hn2 : (l2.map Prod.fst).Nodup := ((hperm.map Prod.fst).nodup_iff).mp hn1
  have hne1 : l1.Pairwise fun a b => a.1 ≠ b.1 := List.pairwise_map.mp hn1
  have hne2 : l2.Pairwise fun a b => a.1 ≠ b.1 := List.pairwise_map.mp hn2
  exact List.eq_of_perm_of_sorted (r := nameStrict) hperm
    (hs1.and hne1) (hs2.and hne2)

theorem param_string_eq_of_perm {k1 k2 : List (String × Option String)}
    (hn1 : (k1.map Prod.fst).Nodup)
    (hperm : List.Perm (k1.filter fun kv => kv.2.isSome)
      (k2.filter fun kv => kv.2.isSome)) :
    param_string k1 = param_string k2 := by
  haveI : IsTotal (String × Option String) nameLe :=
    ⟨fun a b => charListLe_total a.1.data b.1.data⟩
  haveI : IsTrans (String × Option String) nameLe :=
    ⟨fun a b c h1 h2 => charListLe_trans a.1.data b.1.data c.1.data h1 h2⟩
  have hf : List.Perm
      ((List.insertionSort nameLe k1).filter fun kv => kv.2.isSome)
      ((List.insertionSort nameLe k2).filter fun kv => kv.2.isSome) :=
    ((List.perm_insertionSort nameLe k1).filter _).trans
      (hperm.trans ((List.perm_insertionSort nameLe k2).filter _).symm)
  have hs1 : List.Sorted nameLe
      ((List.insertionSort nameLe k1).filter fun kv => kv.2.isSome) :=
    (List.sorted_insertionSort nameLe k1).filter _
  have hs2 : List.Sorted nameLe
      ((List.insertionSort nameLe k2).filter fun kv => kv.2.isSome) :=
    (List.sorted_insertionSort nameLe k2).filter _
  have hn1' : (((List.insertionSort nameLe k1).filter
      fun kv => kv.2.isSome).map Prod.fst).Nodup := by
    have hperm1 : ((List.insertionSort nameLe k1).map Prod.fst).Nodup :=
      (((List.perm_insertionSort nameLe k1).map Prod.fst).nodup_iff).mpr hn1
    exact hperm1.sublist ((List.filter_sublist _).map Prod.fst)
  have heq := sorted_nodup_eq_of_perm hf hs1 hs2 hn1'
  simp only [param_string]
  rw [heq]

/-- C1: `cache_with_fallback` first looks the key up and, when an entry
is present, returns the cached value immediately without invoking the
producer and without touching the store; on a miss it invokes the
producer once and, when the producer returns a non-null value, writes
that value to the store under the key with the given ttl and returns it;
consequently (over a connected store) two sequential calls with no
intervening invalidation invoke the producer at most once in total, and
the second call returns the identical value as the first. -/
theorem cache_with_fallback_hit_miss_idempotent
    (st1 st2 : Store) (key : String) (cv v : JVal) (p : FetchOutcome)
    (ttl : Option Nat)
    (hhit : RedisConfig.get st1 key = some cv)
    (hmiss : RedisConfig.get st2 key = none)
    (hconn : st2.connected = true) :
    cache_with_fallback st1 key p ttl = ⟨.ok (some cv), st1, 0⟩ ∧
    cache_with_fallback st2 key (.returns (some v)) ttl =
      ⟨.ok (some v), (RedisConfig.set st2 key v ttl).2, 1⟩ ∧
    (cache_with_fallback st2 key (.returns (some v)) ttl).producerCalls +
      (cache_with_fallback
        (cache_with_fallback st2 key (.returns (some v)) ttl).store key
        (.returns (some v)) ttl).producerCalls ≤ 1 ∧
    (cache_with_fallback
        (cache_with_fallback st2 key (.returns (some v)) ttl).store key
        (.returns (some v)) ttl).result =
      (cache_with_fallback st2 key (.returns (some v)) ttl).result := by
  have h2 : cache_with_fallback st2 key (.returns (some v)) ttl =
      ⟨.ok (some v), (RedisConfig.set st2 key v ttl).2, 1⟩ := by
    unfold cache_with_fallback; rw [hmiss]
  have hset : RedisConfig.get (RedisConfig.set st2 key v ttl).2 key = some v := by
    simp [RedisConfig.set, RedisConfig.get, hconn]
  have h3 : cache_with_fallback (RedisConfig.set st2 key v ttl).2 key
      (.returns (some v)) ttl =
      ⟨.ok (some v), (RedisConfig.set st2 key v ttl).2, 0⟩ := by
    unfold cache_with_fallback; rw [hset]
  refine ⟨?_, h2, ?_, ?_⟩
  · unfold cache_with_fallback; rw [hhit]
  · simp [h2, h3]
  · simp [h2, h3]

/-- Witness for C1 at concrete inputs: a hit on a populated store (with
a producer that would raise if invoked), and a miss followed by a second
call on an initially empty connected store. -/
theorem cache_with_fallback_hit_miss_idempotent_inst :
    cache_with_fallback smallStore "k" (.raises "boom") none =
      ⟨.ok (some (.num 5)), smallStore, 0⟩ ∧
    cache_with_fallback emptyStore "k" (.returns (some (.num 7))) none =
      ⟨.ok (some (.num 7)), (RedisConfig.set emptyStore "k" (.num 7) none).2, 1⟩ ∧
    (cache_with_fallback emptyStore "k" (.returns (some (.num 7))) none).producerCalls +
      (cache_with_fallback
        (cache_with_fallback emptyStore "k" (.returns (some (.num 7))) none).store "k"
        (.returns (some (.num 7))) none).producerCalls ≤ 1 ∧
    (cache_with_fallback
        (cache_with_fallback emptyStore "k" (.returns (some (.num 7))) none).store "k"
        (.returns (some (.num 7))) none).result =
      (cache_with_fallback emptyStore "k" (.returns (some (.num 7))) none).result :=
  cache_with_fallback_hit_miss_idempotent smallStore emptyStore "k" (.num 5)
    (.num 7) (.raises "boom") none rfl rfl rfl

/-- C2: when the producer raises, `cache_with_fallback` propagates the
failure verbatim, the store is left unchanged (the key is not created),
and a subsequent retry with a succeeding producer returns the fresh
value and populates the cache under the key. -/
theorem producer_failure_propagated_uncached
    (st : Store) (key e : String) (v : JVal) (ttl : Option Nat)
    (hmiss : RedisConfig.get st key = none) (hconn : st.connected = true) :
    cache_with_fallback st key (.raises e) ttl = ⟨.error e, st, 1⟩ ∧
    (cache_with_fallback st key (.returns (some v)) ttl).result = .ok (some v) ∧
    RedisConfig.get
      (cache_with_fallback st key (.returns (some v)) ttl).store key = some v := by
  have h1 : cache_with_fallback st key (.raises e) ttl = ⟨.error e, st, 1⟩ := by
    unfold cache_with_fallback; rw [hmiss]
  have h2 : cache_with_fallback st key (.returns (some v)) ttl =
      ⟨.ok (some v), (RedisConfig.set st key v ttl).2, 1⟩ := by
    unfold cache_with_fallback; rw [hmiss]
  exact ⟨h1, by simp [h2], by simp [h2, RedisConfig.set, RedisConfig.get, hconn]⟩

/-- Witness for C2 at concrete inputs: a failing producer on an empty
connected store, then a succeeding retry. -/
theorem producer_failure_propagated_uncached_inst :
    cache_with_fallback emptyStore "k2" (.raises "db error") (some 1800) =
      ⟨.error "db error", emptyStore, 1⟩ ∧
    (cache_with_fallback emptyStore "k2" (.returns (some (.str "v"))) (some 1800)).result =
      .ok (some (.str "v")) ∧
    RedisConfig.get
      (cache_with_fallback emptyStore "k2" (.returns (some (.str "v")))
        (some 1800)).store "k2" = some (.str "v") :=
  producer_failure_propagated_uncached emptyStore "k2" "db error" (.str "v")
    (some 1800) rfl rfl

/-- C3: when the producer succeeds with a null value,
`cache_with_fallback` returns null, writes nothing to the store, and a
subsequent call for the same key (with no intervening write) invokes the
producer again: null results are never persisted. -/
theorem null_result_not_cached
    (st : Store) (key : String) (p2 : FetchOutcome) (ttl : Option Nat)
    (hmiss : RedisConfig.get st key = none) :
    cache_with_fallback st key (.returns none) ttl = ⟨.ok none, st, 1⟩ ∧
    (cache_with_fallback
      (cache_with_fallback st key (.returns none) ttl).store key p2
      ttl).producerCalls = 1 := by
  have h1 : cache_with_fallback st key (.returns none) ttl = ⟨.ok none, st, 1⟩ := by
    unfold cache_with_fallback; rw [hmiss]
  refine ⟨h1, ?_⟩
  rw [h1]
  show (cache_with_fallback st key p2 ttl).producerCalls = 1
  unfold cache_with_fallback; rw [hmiss]
  cases p2 with
  | raises e => rfl
  | returns v => cases v <;> rfl

/-- Witness for C3 at concrete inputs: a null-returning producer on an
empty connected store, then a second call with another producer. -/
theorem null_result_not_cached_inst :
    cache_with_fallback emptyStore "k3" (.returns none) none =
      ⟨.ok none, emptyStore, 1⟩ ∧
    (cache_with_fallback
      (cache_with_fallback emptyStore "k3" (.returns none) none).store "k3"
      (.returns none) none).producerCalls = 1 :=
  null_result_not_cached emptyStore "k3" (.returns none) none rfl

/-- C4: for parameter mappings (lists with pairwise-distinct names) that
are equal as sets of (name, value) pairs — ignoring order and excluding
entries whose value is null — `generate_cache_key` yields the same key;
the key has the form `"{namespace}:{digest}"` with a fixed-width 32-
character digest of the sorted, null-filtered `name=value` canonical
string. -/
theorem generate_cache_key_deterministic (n : String)
    (p1 p2 : List (String × Option String))
    (hn1 : (p1.map Prod.fst).Nodup) (_hn2 : (p2.map Prod.fst).Nodup)
    (hset : List.Perm (p1.filter fun kv => kv.2.isSome)
      (p2.filter fun kv => kv.2.isSome)) :
    generate_cache_key n p1 = generate_cache_key n p2 ∧
    generate_cache_key n p1 = n ++ ":" ++ md5_hexdigest (param_string p1) ∧
    (md5_hexdigest (param_string p1)).length = 32 := by
  refine ⟨?_, rfl, md5_hexdigest_length _⟩
  unfold generate_cache_key
  rw [param_string_eq_of_perm hn1 hset]

/-- Witness for C4 at concrete inputs: two mappings listing the same
non-null pairs in different orders, one with an extra null-valued
entry. -/
theorem generate_cache_key_deterministic_inst :
    generate_cache_key "summary" [("b", some "2"), ("a", some "1"), ("c", none)] =
      generate_cache_key "summary" [("a", some "1"), ("b", some "2")] ∧
    generate_cache_key "summary" [("b", some "2"), ("a", some "1"), ("c", none)] =
      "summary" ++ ":" ++
        md5_hexdigest (param_string [("b", some "2"), ("a", some "1"), ("c", none)]) ∧
    (md5_hexdigest
      (param_string [("b", some "2"), ("a", some "1"), ("c", none)])).length = 32 :=
  generate_cache_key_deterministic "summary"
    [("b", some "2"), ("a", some "1"), ("c", none)]
    [("a", some "1"), ("b", some "2")] (by decide) (by decide) (by decide)

/-- C5 counterexample: the canonical string joins `name=value` pairs
with unescaped `=` and `&`, so the distinct parameter mappings
`{a: "1&b=2"}` and `{a: "1", b: "2"}` — different as sets of present,
non-null (name, value) pairs, both with pairwise-distinct names —
produce the identical canonical string and therefore the identical key:
the collision is forced before hashing and is not a digest collision. -/
theorem generate_cache_key_collision_inst :
    ¬ List.Perm
        ([("a", (some "1&b=2" : Option String))].filter fun kv => kv.2.isSome)
        ([("a", some "1"), ("b", some "2")].filter fun kv => kv.2.isSome) ∧
    ([("a", (some "1&b=2" : Option String))].map Prod.fst).Nodup ∧
    ([("a", (some "1" : Option String)), ("b", some "2")].map Prod.fst).Nodup ∧
    param_string [("a", some "1&b=2")] =
      param_string [("a", some "1"), ("b", some "2")] ∧
    generate_cache_key "summary" [("a", some "1&b=2")] =
      generate_cache_key "summary" [("a", some "1"), ("b", some "2")] := by
  decide

/-- C5 amended: distinct parameter mappings yield distinct keys whenever
their digests differ — key distinctness holds only up to collisions of
the unescaped canonical string (which the hash cannot undo), not
"excluding only digest collisions" as claimed. -/
theorem generate_cache_key_distinct_of_digest_ne (n : String)
    (p1 p2 : List (String × Option String))
    (hdig : md5_hexdigest (param_string p1) ≠ md5_hexdigest (param_string p2)) :
    generate_cache_key n p1 ≠ generate_cache_key n p2 := by
  intro h
  apply hdig
  have hdata := congrArg String.data h
  rw [show generate_cache_key n p1 =
        (n ++ ":") ++ md5_hexdigest (param_string p1) from rfl,
      show generate_cache_key n p2 =
        (n ++ ":") ++ md5_hexdigest (param_string p2) from rfl,
      String.data_append, String.data_append] at hdata
  exact string_eq_of_data_eq (List.append_cancel_left hdata)

/-- Witness for the amended C5 at concrete inputs: mappings differing in
one present non-null value, whose digests differ. -/
theorem generate_cache_key_distinct_of_digest_ne_inst :
    generate_cache_key "summary" [("a", some "1")] ≠
      generate_cache_key "summary" [("a", some "2")] :=
  generate_cache_key_distinct_of_digest_ne "summary"
    [("a", some "1")] [("a", some "2")] (by decide)

/-- C6: `warm_cache_for_product` never raises; when the fan-out settles
with s of n sub-tasks succeeding it reports successful = s,
failed = n - s, total = n (in particular 2 failures out of 6 yield the
report successful 4, failed 2, total 6); only a catastrophic fan-out
error makes it report zero successes and all tasks failed, together with
the error message. -/
theorem warm_cache_partial_tolerance (asin e : String)
    (results : List SubOutcome) :
    warm_cache_for_product asin (.ok results) =
      { product := asin
        successful := countSuccessful results
        failed := results.length - countSuccessful results
        total := some results.length
        error := none } ∧
    warm_cache_for_product "B01X" (.ok [.ok (.num 1), .exc "db down",
        .ok (.num 2), .exc "timeout", .ok (.num 3), .ok (.num 4)]) =
      { product := "B01X", successful := 4, failed := 2, total := some 6
        error := none } ∧
    warm_cache_for_product asin (.error e) =
      { product := asin, successful := 0, failed := warming_task_count
        total := none, error := some e } :=
  ⟨rfl, rfl, rfl⟩

/-- C7 counterexample: with a client whose key enumeration raises for
the dashboard pattern of product `B01`, `delete_pattern` swallows the
exception (contributing zero), deletion of the other patterns proceeds
(the summary pattern still deletes its one key), and the report has
status `"success"` — not `"error"` with the triggering message as the
claim states. -/
theorem invalidate_swallows_pattern_error_inst :
    flakyClient.keys "dashboard:*B01*" = .exc "connection reset by peer" ∧
    manager_invalidate_product_cache true flakyClient "B01" =
      { product := "B01", deleted_keys := 1, status := "success"
        error := none } ∧
    (manager_invalidate_product_cache true flakyClient "B01").status ≠ "error" :=
  ⟨rfl, rfl, by decide⟩

/-- C7 amended: `invalidateEntity` deletes over each of the six
entity-parameterized glob patterns independently — a raising pattern
delete does not abort the others, but is swallowed by `delete_pattern`
(which catches every exception and returns 0), so the report always has
status `"success"` with the aggregate count; the `status="error"` branch
is reserved for a failure of the aggregate call itself, which the
per-pattern exception handling makes unreachable. -/
theorem invalidate_pattern_errors_swallowed (connected : Bool)
    (client : RawClient) (asin pat e : String)
    (hexc : client.keys pat = OpResult.exc e) :
    manager_invalidate_product_cache connected client asin =
      { product := asin
        deleted_keys := ((invalidation_patterns asin).map
          (delete_pattern connected client)).sum
        status := "success"
        error := none } ∧
    delete_pattern connected client pat = 0 := by
  refine ⟨rfl, ?_⟩
  cases connected <;> simp [delete_pattern, hexc]

/-- Witness for the amended C7 at concrete inputs: the flaky client and
its raising dashboard pattern. -/
theorem invalidate_pattern_errors_swallowed_inst :
    manager_invalidate_product_cache true flakyClient "B01" =
      { product := "B01"
        deleted_keys := ((invalidation_patterns "B01").map
          (delete_pattern true flakyClient)).sum
        status := "success"
        error := none } ∧
    delete_pattern true flakyClient "dashboard:*B01*" = 0 :=
  invalidate_pattern_errors_swallowed true flakyClient "B01"
    "dashboard:*B01*" "connection reset by peer" rfl

/-- C8 counterexample: the source rounds to two decimal places, so the
reported hit rate does not equal `100 * hits / (hits + misses)` exactly:
at hits = 1, misses = 2 the code reports 33.33, not 100/3. -/
theorem hit_rate_rounding_inst :
    calculate_hit_rate 1 2 ≠ 100 * 1 / (1 + 2) ∧
    calculate_hit_rate 1 2 = 3333 / 100 := by
  constructor <;> norm_num [calculate_hit_rate, round2, roundHalfEven]

/-- C8 amended: the reported hit rate equals
`100 * hits / (hits + misses)` rounded to two decimal places (ties to
even), and 0 when hits + misses = 0; in particular hits = 80,
misses = 20 yields exactly 80.0 and hits = 0, misses = 0 yields 0.0. -/
theorem calculate_hit_rate_formula (hits misses : Nat) :
    calculate_hit_rate hits misses =
      (if hits + misses = 0 then 0
       else round2 (100 * hits / (hits + misses))) ∧
    calculate_hit_rate 80 20 = 80 ∧
    calculate_hit_rate 0 0 = 0 := by
  refine ⟨?_, by norm_num [calculate_hit_rate, round2, roundHalfEven],
    by norm_num [calculate_hit_rate]⟩
  show (if hits + misses = 0 then (0:ℚ)
    else round2 ((hits / ((hits + misses : Nat) : ℚ)) * 100)) = _
  rcases Nat.eq_zero_or_pos (hits + misses) with h | h
  · simp [h]
  · rw [if_neg (Nat.pos_iff_ne_zero.mp h), if_neg (Nat.pos_iff_ne_zero.mp h)]
    exact congrArg round2 (by push_cast; ring)

/-- C9: `RedisConfig.set` treats any falsy ttl as unspecified: a ttl of
`0` behaves identically to an absent ttl, storing the entry with the
default 600-second TTL and returning true, and no ttl argument can
produce a zero (immediately-expiring) effective TTL. -/
theorem set_falsy_ttl_uses_default (st : Store) (key : String) (v : JVal)
    (ttl : Option Nat) (hconn : st.connected = true) :
    RedisConfig.set st key v (some 0) = RedisConfig.set st key v none ∧
    (RedisConfig.set st key v (some 0)).1 = true ∧
    (RedisConfig.set st key v (some 0)).2.entries key = some (v, default_ttl) ∧
    effective_ttl ttl ≠ 0 := by
  refine ⟨rfl, ?_, ?_, ?_⟩
  · simp [RedisConfig.set, hconn]
  · simp [RedisConfig.set, hconn, effective_ttl]
  · cases ttl with
    | none => simp [effective_ttl, default_ttl]
    | some t => by_cases h : t = 0 <;> simp [effective_ttl, default_ttl, h]

/-- Witness for C9 at concrete inputs: a zero ttl on an empty connected
store. -/
theorem set_falsy_ttl_uses_default_inst :
    RedisConfig.set emptyStore "k" (.num 1) (some 0) =
      RedisConfig.set emptyStore "k" (.num 1) none ∧
    (RedisConfig.set emptyStore "k" (.num 1) (some 0)).1 = true ∧
    (RedisConfig.set emptyStore "k" (.num 1) (some 0)).2.entries "k" =
      some (.num 1, default_ttl) ∧
    effective_ttl (some 0) ≠ 0 :=
  set_falsy_ttl_uses_default emptyStore "k" (.num 1) (some 0) rfl

/-- C10: on a miss with a succeeding non-null producer, the value
`cache_with_fallback` returns is the fresh producer value for every
store state — the boolean result of the store write is ignored, so a
failed or skipped write (e.g. disconnected store, where the write
returns false) still yields the fresh value without raising. -/
theorem fresh_value_independent_of_write (st : Store) (key : String)
    (v : JVal) (ttl : Option Nat)
    (hmiss : RedisConfig.get st key = none) :
    (cache_with_fallback st key (.returns (some v)) ttl).result =
      .ok (some v) ∧
    (st.connected = false → (RedisConfig.set st key v ttl).1 = false) := by
  have h2 : cache_with_fallback st key (.returns (some v)) ttl =
      ⟨.ok (some v), (RedisConfig.set st key v ttl).2, 1⟩ := by
    unfold cache_with_fallback; rw [hmiss]
  exact ⟨by simp [h2], fun h => by simp [RedisConfig.set, h]⟩

/-- Witness for C10 at concrete inputs: a disconnected store, where the
write fails (returns false) yet the fresh value is returned. -/
theorem fresh_value_independent_of_write_inst :
    (cache_with_fallback offlineStore "k" (.returns (some (.num 7))) none).result =
      .ok (some (.num 7)) ∧
    (RedisConfig.set offlineStore "k" (.num 7) none).1 = false :=
  ⟨(fresh_value_independent_of_write offlineStore "k" (.num 7) none rfl).1,
   (fresh_value_independent_of_write offlineStore "k" (.num 7) none rfl).2 rfl⟩

end CacheCore
